import Mathlib

/-!
# Verification of the fetcha-bot polling / deduplication pipeline

Shallow embedding of the core of the `fetcha-bot` repository:

* `src/rate_limiter.py` — the per-source request-budget tracker (`RateLimiter`);
* `src/grok_api.py` — the batch analysis gateway (`grok_analyze`);
* `src/api/analysis.py` — the single-text analysis gateway (`AnalysisAPI.analyze_text`);
* `src/utils/data.py` — the persisted dedup store (`save_processed_ids`);
* `src/api/finnhub.py`, `src/api/twitter.py` — the source fetchers;
* `src/main.py` — the per-item processing loops of `fetch_news` / `fetch_tweets`
  and the `error_counts` circuit breaker of `fetch_tweets`.

Python `time.time()` timestamps are modelled as integers (only ordering and
addition of timestamps matter to the properties below), Python dictionaries of
JSON data as association lists over a `PyVal` type, and Python exceptions as
explicit `Option` / sum results.
-/

namespace FetchaBot

/-- A Python/JSON value as it appears in the analysis dictionaries.  JSON
arrays are modelled as arrays of strings: the only arrays the embedded code
constructs or inspects are the `assets` lists, whose elements are strings. -/
inductive PyVal where
  | none
  | bool (b : Bool)
  | int (n : Int)
  | str (s : String)
  | list (xs : List String)
  deriving DecidableEq, Repr

/-- Python truthiness (`if v:`) for the values of `PyVal`. -/
def truthy : PyVal → Bool
  | .none => false
  | .bool b => b
  | .int n => n ≠ 0
  | .str s => s ≠ ""
  | .list xs => !xs.isEmpty

/-- A Python dict holding parsed JSON, as an association list. -/
def PyDict := List (String × PyVal)

/-- Python `d.get(key, default)` on a dict of parsed JSON. -/
def pyGet (d : PyDict) (key : String) (default : PyVal) : PyVal :=
  match d.find? (fun kv => kv.1 = key) with
  | some kv => kv.2
  | Option.none => default

/-! ## RateLimiter (`src/rate_limiter.py`)

`RateLimiter` keeps, per source name (`'twitter'`, `'finnhub'`, `'grok'`),
a dict `{window, max_requests, remaining}` in `self.rate_limits`, a float in
`self.last_reset` and a list of request timestamps in `self.requests`.  Every
method touches only the entry of the one source it is called for, so the
embedding is the per-source projection of that state. -/

/-- The per-source state of `RateLimiter`: the `self.rate_limits[api]` dict
(`window`, `max_requests`, `remaining`), `self.last_reset.get(api)` and
`self.requests.get(api, [])`. -/
structure SrcState where
  window : Int
  maxRequests : Int
  remaining : Int
  lastReset : Option Int
  requests : List Int
  deriving DecidableEq, Repr

/-- Line 65 of `rate_limiter.py`:
`window_end = self.last_reset.get(api, 0) + self.rate_limits[api]['window']`. -/
def windowEnd (s : SrcState) : Int :=
  s.lastReset.getD 0 + s.window

/-- Lines 66-68 of `rate_limiter.py`: `if now > window_end:` reset
`remaining` to `max_requests` and `last_reset` to `now`. -/
def resetIfExpired (s : SrcState) (now : Int) : SrcState :=
  if windowEnd s < now then
    { s with remaining := s.maxRequests, lastReset := some now }
  else s

/-- Method `RateLimiter.check_rate_limit(api)` (lines 54-80 of `rate_limiter.py`).

The returned pair is the state of `self` after the call together with the
Python return value.  The module never imports `random`, so in the
`remaining <= 0` branch the expression `random.uniform(0.1, 0.3)` raises
`NameError`; this is modelled by the result `Option.none` (no value is
returned; the mutations made before the raise — the window reset — persist
on `self`). -/
def check_rate_limit (s : SrcState) (now : Int) : SrcState × Option (Bool × Int) :=
  let s1 := resetIfExpired s now
  if s1.remaining ≤ 0 then
    (s1, Option.none)
  else
    ({ s1 with remaining := s1.remaining - 1, requests := s1.requests ++ [now] },
      some (true, 0))

/-- Method `RateLimiter.log_request(api)` (lines 93-99 of `rate_limiter.py`):
append `now` to `self.requests[api]` and set
`remaining = max(0, remaining - 1)`. -/
def log_request (s : SrcState) (now : Int) : SrcState :=
  { s with requests := s.requests ++ [now],
           remaining := max 0 (s.remaining - 1) }

/-- The invariant claimed for every rate budget: `0 ≤ remaining ≤ max_requests`. -/
def RateInv (s : SrcState) : Prop :=
  0 ≤ s.remaining ∧ s.remaining ≤ s.maxRequests

instance : DecidablePred RateInv := fun s => by
  unfold RateInv; infer_instance

/-! ## Batch analysis gateway (`src/grok_api.py`)

`grok_analyze(texts, api_key)` normalises a single string to a one-element
list, calls the chat API, parses the JSON answer and builds one result dict
per `(analysis, text)` pair of `zip(analyses, texts)`.  The whole call /
parse / build is wrapped in one `try`, whose `except Exception` returns one
fixed default dict per input text. -/

/-- Python `str.capitalize()`: first character upper-cased, the rest
lower-cased. -/
def pyCapitalize (s : String) : String :=
  match s.data with
  | [] => ""
  | c :: cs => String.mk (c.toUpper :: cs.map Char.toLower)

/-- Python `v.capitalize()` on a JSON value: only strings have the method, any other
value raises `AttributeError` (modelled by `Option.none`, which lands the
enclosing `try` of `grok_analyze` in its `except` branch). -/
def capitalizeVal : PyVal → Option String
  | .str s => some (pyCapitalize s)
  | _ => Option.none

/-- One entry of the list returned by `grok_analyze` (lines 24-34 / 36-45 of
`grok_api.py`): a dict with exactly these seven keys. -/
structure Verdict where
  relevant : PyVal
  headline : PyVal
  direction : PyVal
  sentiment : PyVal
  score : PyVal
  impact : PyVal
  assets : PyVal
  deriving DecidableEq, Repr

/-- The dict built by the `except Exception` branch of `grok_analyze`
(lines 36-45 of `grok_api.py`), one copy per input text. -/
def grokDefault : Verdict :=
  { relevant := .bool false
    headline := .str "Analysis Failed"
    direction := .str "Neutral"
    sentiment := .str "Neutral"
    score := .int 5
    impact := .int 5
    assets := .list [] }

/-- One entry of the success-path comprehension of `grok_analyze`
(lines 25-33 of `grok_api.py`) for the pair `(a, t)`.  `Option.none` models
the `AttributeError` raised by `.capitalize()` when the upstream JSON holds a
non-string under `direction` or `sentiment`; that exception is raised inside
the `try`, sending the whole call to the default branch. -/
def mkVerdict (a : PyDict) (t : String) : Option Verdict := do
  let dir ← capitalizeVal (pyGet a "direction" (.str "neutral"))
  let sen ← capitalizeVal (pyGet a "sentiment" (.str "neutral"))
  pure { relevant := pyGet a "relevant" (.bool false)
         headline := pyGet a "headline" (.str (t.take 140))
         direction := .str dir
         sentiment := .str sen
         score := pyGet a "score" (.int 5)
         impact := pyGet a "impact" (.int 5)
         assets := pyGet a "assets" (.list []) }

/-- The success-path list comprehension of `grok_analyze`:
`[... for a, t in zip(analyses, texts)]`. -/
def grokTry (ds : List PyDict) (texts : List String) : Option (List Verdict) :=
  (ds.zip texts).mapM (fun p => mkVerdict p.1 p.2)

/-- The `texts` argument of `grok_analyze`: a single string or a list. -/
inductive TextsArg where
  | str (s : String)
  | list (ts : List String)
  deriving DecidableEq, Repr

/-- Lines 6-7 of `grok_api.py`: `if isinstance(texts, str): texts = [texts]`. -/
def normalizeTexts : TextsArg → List String
  | .str s => [s]
  | .list ts => ts

/-- Function `grok_analyze(texts, api_key)` (`src/grok_api.py`).

`up` is the outcome of the chat-completions call and of
`json.loads(completion.choices[0].message.content)`: `.ok ds` when the call
succeeded and the content parsed as a list of dicts, `.error ()` when the
call raised or the content was not such a list (any exception inside the
`try` reaches the same `except Exception` branch).  A `.capitalize()`
failure inside the comprehension (`grokTry … = none`) reaches that branch
too.  The function itself never raises. -/
def grok_analyze (arg : TextsArg) (up : Except Unit (List PyDict)) : List Verdict :=
  let texts := normalizeTexts arg
  match up with
  | .error _ => texts.map (fun _ => grokDefault)
  | .ok ds =>
    match grokTry ds texts with
    | some vs => vs
    | Option.none => texts.map (fun _ => grokDefault)

/-! ## Single-text analysis gateway (`src/api/analysis.py`) -/

/-- The outcome of `AnalysisAPI.analyze_text`'s upstream interaction:
the chat call raised, the returned content was empty/whitespace
(lines 52-54), no JSON object could be parsed out of it
(`json.JSONDecodeError`, lines 89-91), or a JSON dict was parsed. -/
inductive UpstreamSingle where
  | raised
  | empty
  | unparsable
  | parsed (d : PyDict)

/-- Python `int(v)` on a JSON value; `Option.none` models the `TypeError` /
`ValueError` raised on inconvertible values, which the generic
`except Exception` of `analyze_text` turns into `None`. -/
def pyToInt : PyVal → Option Int
  | .int n => some n
  | .bool b => some (if b then 1 else 0)
  | .str s => s.toInt?
  | _ => Option.none

/-- The dict returned by the success path of `analyze_text`
(lines 80-87 of `src/api/analysis.py`). -/
structure VerdictA where
  sentiment : PyVal
  score : Int
  impact : PyVal
  direction : PyVal
  assets : PyVal
  relevant : PyVal
  deriving DecidableEq, Repr

/-- Method `AnalysisAPI.analyze_text(text)` (`src/api/analysis.py`): returns `None`
(here `Option.none`) when the upstream call raised, the content was
empty/whitespace, or no JSON could be parsed from it; otherwise the parsed
dict with per-field defaults.  The function never raises. -/
def analyze_text : UpstreamSingle → Option VerdictA
  | .raised => Option.none
  | .empty => Option.none
  | .unparsable => Option.none
  | .parsed d =>
    match pyToInt (pyGet d "score" (.int 5)) with
    | Option.none => Option.none
    | some sc =>
      some { sentiment := pyGet d "sentiment" (.str "neutral")
             score := sc
             impact := pyGet d "impact" (.str "medium")
             direction := pyGet d "direction" (.str "neutral")
             assets :=
               (let a := pyGet d "assets" (.list [])
                if truthy a then a else .list [])
             relevant := pyGet d "relevant" (.bool false) }

/-! ## Dedup store persistence (`src/utils/data.py`) -/

/-- The truncation applied by `save_processed_ids` to one category
(lines 60-62 of `src/utils/data.py`):
`list(ids)[-1000:] if len(ids) > 1000 else list(ids)`.
The argument is the iteration order of the Python `set` passed in — for a
`set` (unlike a `dict`) that order is hash-determined and unrelated to
insertion order. -/
def save_processed_list (ids : List String) : List String :=
  if ids.length > 1000 then ids.drop (ids.length - 1000) else ids

/-- Function `save_processed_ids(news_ids, tweet_ids)` (`src/utils/data.py`): the two
category lists as persisted into `processed_ids.json`.  Each argument is the
iteration order of the corresponding Python `set`. -/
def save_processed_ids (newsIter tweetsIter : List String) :
    List String × List String :=
  (save_processed_list newsIter, save_processed_list tweetsIter)

/-- Modelled from the spec: the retention rule the spec states for `save` —
"when a category holds more than 1000 ids the retained 1000 are the most
recently inserted ones in insertion order".  The argument is the category's
ids in insertion order; the result keeps the last 1000 of them. -/
def specMostRecentByInsertion (insertionOrder : List String) : List String :=
  insertionOrder.drop (insertionOrder.length - 1000)

/-! ## Source fetchers (`src/api/finnhub.py`, `src/api/twitter.py`) -/

/-- A Finnhub news article, restricted to the fields
`FinnhubAPI.get_recent_news` reads (`article.get('datetime', 0)`). -/
structure NewsArticle where
  id : Int
  datetime : Int
  deriving DecidableEq, Repr

/-- Method `FinnhubAPI.get_recent_news(category, minutes)`
(`src/api/finnhub.py`, lines 17-57).  `up` is the outcome of
`self.client.general_news(category)`: `.ok news` on success, `.error ()`
when it raised — the surrounding `try` catches every exception and returns
`[]` (lines 55-57).  On success the articles from the last `minutes` are
kept and sorted newest-first.  The function never raises. -/
def get_recent_news (up : Except Unit (List NewsArticle)) (fromTime : Int) :
    List NewsArticle :=
  match up with
  | .error _ => []
  | .ok news =>
    if news.isEmpty then []
    else
      let recent := news.filter (fun a => fromTime ≤ a.datetime)
      if recent.isEmpty then []
      else recent.mergeSort (fun a b => decide (b.datetime ≤ a.datetime))

/-- A tweet, restricted to the fields `TwitterAPI.get_recent_tweets`
projects into its result dicts. -/
structure Tweet where
  id : Int
  text : String
  created_at : Int
  deriving DecidableEq, Repr

/-- The outcome of one attempt of the retry loop of
`TwitterAPI.get_recent_tweets`: the API call returned (`data` possibly
absent), raised `tweepy.TooManyRequests`, or raised any other exception. -/
inductive TwAttempt where
  | ok (dat : Option (List Tweet))
  | tooMany
  | exc
  deriving DecidableEq, Repr

/-- What one loop iteration of `get_recent_tweets` produces: `some r`
means the function returns `r` now (`if not tweets.data: return []` on
line 189-190, the projection on lines 192-196, or the
`except Exception: return []` on lines 236-238); `Option.none` means
`tweepy.TooManyRequests` was raised and the loop retries. -/
def twAttemptResult : TwAttempt → Option (List Tweet)
  | .ok Option.none => some []
  | .ok (some ts) => some (if ts.isEmpty then [] else ts)
  | .exc => some []
  | .tooMany => Option.none

/-- Method `TwitterAPI.get_recent_tweets(user_id, minutes)`
(`src/api/twitter.py`, lines 144-238) with `max_retries = 3`: the retry
loop unrolled over the outcomes `os 0`, `os 1`, `os 2` of its (at most
three) attempts.  After the third `TooManyRequests` the `attempt >=
max_retries` branch returns `[]` (lines 214-219).  The function never
raises. -/
def get_recent_tweets (os : Nat → TwAttempt) : List Tweet :=
  match twAttemptResult (os 0) with
  | some r => r
  | Option.none =>
    match twAttemptResult (os 1) with
    | some r => r
    | Option.none =>
      match twAttemptResult (os 2) with
      | some r => r
      | Option.none => []

/-! ## The per-item pipelines of `src/main.py`

The observable actions of the processing loops are recorded as traces of
events: the calls into the rate limiter, the analysis gateway, the dedup
set and the alert dispatcher, in program order. -/

/-- One observable action of a processing loop of `src/main.py`. -/
inductive Event where
  | checkRate (api : String)
  | analyze (texts : List String)
  | logRequest (api : String)
  | markSeen (id : String)
  | send (id : String)
  | excCaught
  deriving DecidableEq, Repr

/-- One entry of `batch_tweets` in `fetch_tweets`
(line 280 of `src/main.py`): `{'id': …, 'text': …, 'username': …, 'name': …}`. -/
structure TweetData where
  id : String
  text : String
  username : String
  name : String
  deriving DecidableEq, Repr

/-- The events of one iteration of `for i, analysis in enumerate(analyses)`
(lines 289-307 of `src/main.py`) for the pair `(analysis, batch_tweets[i])`:
mark the id seen, then send iff `analysis.get('relevant', False)` is truthy. -/
def tweetBlock (p : Verdict × TweetData) : List Event :=
  .markSeen p.2.id :: (if truthy p.1.relevant then [.send p.2.id] else [])

/-- The batch-processing step of `fetch_tweets`
(lines 283-307 of `src/main.py`): under `if batch_tweets:`, one
`grok_analyze` call over all collected texts, one
`rate_limiter.log_request('grok')`, then the per-entry loop.
`enumerate(analyses)` with `batch_tweets[i]` visits exactly the pairs of
`analyses.zip batch` (`grok_analyze` never returns more entries than it was
given texts).  `up` is the upstream outcome of the one `grok_analyze`
call. -/
def processBatch (batch : List TweetData) (up : Except Unit (List PyDict)) :
    List Event :=
  if batch.isEmpty then []
  else
    let texts := batch.map (fun t => t.text)
    .analyze texts :: .logRequest "grok" ::
      ((grok_analyze (.list texts) up).zip batch).flatMap tweetBlock

/-- A Finnhub article as read by `fetch_news`
(`article['id']`, `article['summary']`). -/
structure Article where
  id : Int
  summary : String
  deriving DecidableEq, Repr

/-- The `for article in news` loop of one category of `fetch_news`
(lines 107-140 of `src/main.py`), returning the event trace and the updated
`processed_news` set (kept in insertion order).

Already-seen articles are skipped.  For the first new article the code runs
`check_rate_limit('grok')`, `analysis = grok_analyze(article['summary'], …)`,
`log_request('grok')` and `processed_news.add(str(article['id']))` — and then
crashes: `grok_analyze` returns a *list*, so `analysis.get('relevant',
False)` on line 125 raises `AttributeError`, which the per-category
`except Exception` (line 138) catches, abandoning the remaining articles of
the category.  Consequently no `send` ever happens in `fetch_news` and at
most one new article per category is marked seen. -/
def processNews (seen : List String) : List Article → List Event × List String
  | [] => ([], seen)
  | a :: rest =>
    if seen.contains (toString a.id) then processNews seen rest
    else
      ([.checkRate "grok", .analyze [a.summary], .logRequest "grok",
        .markSeen (toString a.id), .excCaught],
       seen ++ [toString a.id])

/-! ## The `error_counts` circuit breaker of `fetch_tweets` (`src/main.py`) -/

/-- Constant `CIRCUIT_BREAKER_THRESHOLD = 5` (line 175 of `src/main.py`). -/
def CIRCUIT_BREAKER_THRESHOLD : Nat := 5

/-- Line 321 of `src/main.py`:
`error_counts[username] = error_counts.get(username, 0) + 1` on a
non-rate-limit HTTP error.  The counter table is modelled as a total map
with default 0 (the semantics of `.get(username, 0)`). -/
def recordFailure (m : String → Nat) (u : String) : String → Nat :=
  fun v => if v = u then m u + 1 else m v

/-- Line 258 of `src/main.py`: `error_counts[username] = 0` after the retry
loop succeeds. -/
def recordSuccess (m : String → Nat) (u : String) : String → Nat :=
  fun v => if v = u then 0 else m v

/-- Line 189 of `src/main.py`:
`error_counts.get(username, 0) >= CIRCUIT_BREAKER_THRESHOLD` decides the
`continue` that skips the influencer. -/
def shouldSkip (m : String → Nat) (u : String) : Bool :=
  decide (CIRCUIT_BREAKER_THRESHOLD ≤ m u)

/-- Iterates `n` consecutive `recordFailure` calls for `u` with no
intervening success. -/
def failN : Nat → (String → Nat) → String → (String → Nat)
  | 0, m, _ => m
  | n + 1, m, u => recordFailure (failN n m u) u

/-! ## Trace checkers

Boolean checkers over event traces, used to state the ordering properties of
the pipelines. -/

/-- Checker `sendsMarkedBefore marked tr` holds when every `send id` of `tr` is
preceded (in `tr`, or in the pre-marked set `marked`) by `markSeen id`. -/
def sendsMarkedBefore (marked : List String) : List Event → Bool
  | [] => true
  | .send i :: rest => marked.contains i && sendsMarkedBefore marked rest
  | .markSeen i :: rest => sendsMarkedBefore (i :: marked) rest
  | .checkRate _ :: rest => sendsMarkedBefore marked rest
  | .analyze _ :: rest => sendsMarkedBefore marked rest
  | .logRequest _ :: rest => sendsMarkedBefore marked rest
  | .excCaught :: rest => sendsMarkedBefore marked rest

/-- Checker `markedBeforeAnalyzed id text tr` holds when `markSeen id` occurs in
`tr` before any `analyze` event whose batch contains `text` — the ordering
the claim under scrutiny asserts for each new item. -/
def markedBeforeAnalyzed (id text : String) : List Event → Bool
  | [] => true
  | .markSeen i :: rest =>
    if i = id then true else markedBeforeAnalyzed id text rest
  | .analyze ts :: rest =>
    if ts.contains text then false else markedBeforeAnalyzed id text rest
  | .checkRate _ :: rest => markedBeforeAnalyzed id text rest
  | .logRequest _ :: rest => markedBeforeAnalyzed id text rest
  | .send _ :: rest => markedBeforeAnalyzed id text rest
  | .excCaught :: rest => markedBeforeAnalyzed id text rest

/-- Checker `analyzedBeforeMarked id text tr` holds when an `analyze` event whose
batch contains `text` occurs in `tr` before any `markSeen id` — the
ordering the code actually implements. -/
def analyzedBeforeMarked (id text : String) : List Event → Bool
  | [] => true
  | .analyze ts :: rest =>
    if ts.contains text then true else analyzedBeforeMarked id text rest
  | .markSeen i :: rest =>
    if i = id then false else analyzedBeforeMarked id text rest
  | .checkRate _ :: rest => analyzedBeforeMarked id text rest
  | .logRequest _ :: rest => analyzedBeforeMarked id text rest
  | .send _ :: rest => analyzedBeforeMarked id text rest
  | .excCaught :: rest => analyzedBeforeMarked id text rest

/-! ## Theorems -/

theorem resetIfExpired_of_expired {s : SrcState} {now : Int}
    (h : windowEnd s < now) :
    resetIfExpired s now =
      { s with remaining := s.maxRequests, lastReset := some now } := by
  unfold resetIfExpired
  rw [if_pos h]

theorem resetIfExpired_of_live {s : SrcState} {now : Int}
    (h : ¬ windowEnd s < now) :
    resetIfExpired s now = s := by
  unfold resetIfExpired
  rw [if_neg h]

/-- C2. For every source and every `check_rate_limit` call: if `now` is
past the window end (`last_reset + window`), the call resets the budget —
`remaining` is set to `max_requests` (then decremented by the request being
granted) and the new window end becomes `now + window` — and the reset
happens exactly once per elapsed window: any further call made at a time not
past the new window end leaves the reset state untouched, and calls whose
`now` is not past the window end never reset at all. -/
theorem check_rate_limit_resets_once (s : SrcState) (now : Int)
    (hmax : 0 < s.maxRequests) (hexp : windowEnd s < now) :
    (resetIfExpired s now).remaining = s.maxRequests ∧
    windowEnd (resetIfExpired s now) = now + s.window ∧
    (check_rate_limit s now).2 = some (true, 0) ∧
    (check_rate_limit s now).1.remaining = s.maxRequests - 1 ∧
    windowEnd (check_rate_limit s now).1 = now + s.window ∧
    (∀ now' : Int, now' ≤ now + s.window →
      resetIfExpired (check_rate_limit s now).1 now' = (check_rate_limit s now).1) ∧
    (∀ t : Int, ¬ windowEnd s < t → resetIfExpired s t = s) := by
  have hreset := resetIfExpired_of_expired hexp
  have hrem : (resetIfExpired s now).remaining = s.maxRequests := by
    rw [hreset]
  have hwe : windowEnd (resetIfExpired s now) = now + s.window := by
    rw [hreset]; simp [windowEnd]
  have hpos : ¬ (resetIfExpired s now).remaining ≤ 0 := by
    rw [hrem]; omega
  have hcheck : check_rate_limit s now =
      ({ resetIfExpired s now with
          remaining := (resetIfExpired s now).remaining - 1,
          requests := (resetIfExpired s now).requests ++ [now] },
        some (true, 0)) := by
    unfold check_rate_limit
    rw [if_neg hpos]
  refine ⟨hrem, hwe, ?_, ?_, ?_, ?_, fun t ht => resetIfExpired_of_live ht⟩
  · rw [hcheck]
  · rw [hcheck]; simpa using hrem
  · rw [hcheck]
    simpa [windowEnd] using hwe
  · intro now' h
    rw [hcheck]
    apply resetIfExpired_of_live
    have : windowEnd { resetIfExpired s now with
        remaining := (resetIfExpired s now).remaining - 1,
        requests := (resetIfExpired s now).requests ++ [now] } =
        windowEnd (resetIfExpired s now) := by
      simp [windowEnd]
    rw [this, hwe]
    omega

/-- Witness for `check_rate_limit_resets_once`: the initial `'twitter'`
budget (`window 900`, `max_requests 180`, `remaining 180`, no reset yet) at
`now = 1000`. -/
theorem check_rate_limit_resets_once_witness :
    (0 : Int) < 180 ∧ windowEnd ⟨900, 180, 180, Option.none, []⟩ < 1000 ∧
    ((check_rate_limit ⟨900, 180, 180, Option.none, []⟩ 1000).2 = some (true, 0) ∧
      (check_rate_limit ⟨900, 180, 180, Option.none, []⟩ 1000).1.remaining = 180 - 1) :=
  ⟨by decide, by decide,
    ((check_rate_limit_resets_once ⟨900, 180, 180, Option.none, []⟩ 1000
      (by decide) (by decide)).2.2.1),
    ((check_rate_limit_resets_once ⟨900, 180, 180, Option.none, []⟩ 1000
      (by decide) (by decide)).2.2.2.1)⟩

/-- C3. `src/rate_limiter.py` never imports `random`, so the
`remaining <= 0` branch of `check_rate_limit` (lines 72-76) raises
`NameError` at `random.uniform(0.1, 0.3)` instead of returning the
documented `(False, wait_time)` pair.  Evaluated at a concrete exhausted
budget (`remaining = 0`, `last_reset = 100`, `window = 60`) at `now = 130`
(window not yet expired): the call produces no return value
(`Option.none` models the raise) and leaves the state unchanged. -/
theorem check_rate_limit_raises_when_exhausted :
    check_rate_limit ⟨60, 60, 0, some 100, []⟩ 130 =
      (⟨60, 60, 0, some 100, []⟩, Option.none) := by
  decide

/-- C4. For every source, the invariant `0 ≤ remaining ≤ max_requests`
is preserved by every attempted request (`check_rate_limit`, including its
exception branch, which mutates nothing beyond the window reset) and every
completed request (`log_request`), from any state satisfying it. -/
theorem rate_invariant_preserved (s : SrcState) (now : Int) (h : RateInv s) :
    RateInv (check_rate_limit s now).1 ∧ RateInv (log_request s now) := by
  obtain ⟨h0, h1⟩ := h
  have hmax : 0 ≤ s.maxRequests := le_trans h0 h1
  have hr : RateInv (resetIfExpired s now) ∧
      (resetIfExpired s now).maxRequests = s.maxRequests := by
    unfold resetIfExpired RateInv
    split_ifs <;> exact ⟨⟨by simp_all, by simp_all⟩, by simp_all⟩
  refine ⟨?_, ?_⟩
  · unfold check_rate_limit
    by_cases hz : (resetIfExpired s now).remaining ≤ 0
    · rw [if_pos hz]; exact hr.1
    · rw [if_neg hz]
      have h2 := hr.1.1
      have h3 := hr.1.2
      exact ⟨by simp; omega, by simp; omega⟩
  · unfold log_request RateInv
    refine ⟨by simp [le_max_left], ?_⟩
    simp only
    exact max_le hmax (by omega)

/-- Witness for `rate_invariant_preserved`: the initial `'finnhub'` budget
(`window 60`, `max_requests 60`, `remaining 30`) at `now = 30`. -/
theorem rate_invariant_preserved_witness :
    RateInv ⟨60, 60, 30, Option.none, []⟩ ∧
    (RateInv (check_rate_limit ⟨60, 60, 30, Option.none, []⟩ 30).1 ∧
      RateInv (log_request ⟨60, 60, 30, Option.none, []⟩ 30)) :=
  ⟨by decide, rate_invariant_preserved ⟨60, 60, 30, Option.none, []⟩ 30 (by decide)⟩

set_option maxRecDepth 100000 in
/-- C5. `save_processed_ids` receives Python `set`s, and
`list(news_ids)[-1000:]` keeps the last 1000 entries of the set's
*iteration* order — which for a `set` is hash-determined, not insertion
order — although both the function's docstring ("Keeps only the most recent
1000 IDs") and the spec promise insertion-order retention.  Evaluated at a
concrete input: 1001 ids `"0" … "1000"` inserted in numeric order whose set
iterates in the reverse order.  The persisted list is capped at 1000
entries, but it drops the most recently inserted id `"1000"`, which the
spec's retention rule keeps; the iteration order is a permutation of the
insertion order, so both orders denote the same set. -/
theorem save_processed_ids_drops_newest :
    (save_processed_list (((List.range 1001).map (fun n => toString n)).reverse)).length
        = 1000 ∧
    "1000" ∉ save_processed_list (((List.range 1001).map (fun n => toString n)).reverse) ∧
    "1000" ∈ specMostRecentByInsertion ((List.range 1001).map (fun n => toString n)) ∧
    (((List.range 1001).map (fun n => toString n)).reverse).Perm
      ((List.range 1001).map (fun n => toString n)) ∧
    save_processed_list (((List.range 1001).map (fun n => toString n)).reverse)
      ≠ specMostRecentByInsertion ((List.range 1001).map (fun n => toString n)) := by
  refine ⟨by decide, by decide, by decide, List.reverse_perm _, ?_⟩
  intro h
  have h1 : "1000" ∉ save_processed_list
      (((List.range 1001).map (fun n => toString n)).reverse) := by decide
  have h2 : "1000" ∈ specMostRecentByInsertion
      ((List.range 1001).map (fun n => toString n)) := by decide
  rw [h] at h1
  exact h1 h2

/-- C6, counterexample. On malformed upstream output the analysis code
does *not* return the claimed default Verdict: `AnalysisAPI.analyze_text`
returns `None` (no verdict at all, so its caller must handle the failure
value), and the default dict of `grok_analyze` carries `impact = 5` (an
integer, not `'medium'`) and capitalised `'Neutral'` strings. -/
theorem analysis_default_counterexample :
    analyze_text .unparsable = Option.none ∧
    grok_analyze (.str "x") (.error ()) = [grokDefault] ∧
    grokDefault.impact = PyVal.int 5 ∧
    PyVal.int 5 ≠ PyVal.str "medium" ∧
    grokDefault.sentiment = PyVal.str "Neutral" := by
  decide

/-- C6, amended. On malformed or empty upstream output the analysis
code never raises, but the two gateways default differently:
`grok_analyze` returns, per input text, the fixed dict
`{relevant: False, headline: 'Analysis Failed', sentiment: 'Neutral',
score: 5, impact: 5, direction: 'Neutral', assets: []}`, while
`AnalysisAPI.analyze_text` returns `None` rather than any default
verdict. -/
theorem analysis_gateway_defaults :
    (∀ (arg : TextsArg) (e : Unit),
      grok_analyze arg (.error e) =
        (normalizeTexts arg).map (fun _ => grokDefault)) ∧
    grokDefault =
      ⟨PyVal.bool false, PyVal.str "Analysis Failed", PyVal.str "Neutral",
        PyVal.str "Neutral", PyVal.int 5, PyVal.int 5, PyVal.list []⟩ ∧
    analyze_text .raised = Option.none ∧
    analyze_text .empty = Option.none ∧
    analyze_text .unparsable = Option.none :=
  ⟨fun _ _ => rfl, rfl, rfl, rfl, rfl⟩

/-- C10. `grok_analyze` never raises when the chat call or the parsing
of its response fails: whether the input was a single string (normalised to
a one-element list) or a list of `n` texts, on the exception path — the
upstream call/parse raised (`.error`), or building the result entries
raised (`grokTry … = none`) — it returns exactly one default entry per
input text, every entry carrying `relevant = False`. -/
theorem grok_analyze_total_on_failure :
    (∀ (arg : TextsArg) (e : Unit),
      (grok_analyze arg (.error e)).length = (normalizeTexts arg).length ∧
      ∀ v ∈ grok_analyze arg (.error e), v.relevant = PyVal.bool false) ∧
    (∀ (s : String) (e : Unit), (grok_analyze (.str s) (.error e)).length = 1) ∧
    (∀ (arg : TextsArg) (ds : List PyDict),
      grokTry ds (normalizeTexts arg) = Option.none →
      (grok_analyze arg (.ok ds)).length = (normalizeTexts arg).length ∧
      ∀ v ∈ grok_analyze arg (.ok ds), v.relevant = PyVal.bool false) := by
  refine ⟨fun arg e => ⟨?_, ?_⟩, fun s e => rfl, fun arg ds h => ?_⟩
  · simp [grok_analyze]
  · intro v hv
    simp [grok_analyze] at hv
    rw [hv.2]
    rfl
  · have hres : grok_analyze arg (.ok ds) =
        (normalizeTexts arg).map (fun _ => grokDefault) := by
      unfold grok_analyze
      simp only [h]
    refine ⟨by simp [hres], ?_⟩
    intro v hv
    rw [hres] at hv
    simp at hv
    rw [hv.2]
    rfl

/-- Witness for `grok_analyze_total_on_failure`: a single-string call whose
upstream raised, and a call whose returned JSON held a non-string
`direction` (so `.capitalize()` raised inside the comprehension). -/
theorem grok_analyze_total_on_failure_witness :
    ((grok_analyze (.str "x") (.error ())).length = 1 ∧
      ∀ v ∈ grok_analyze (.str "x") (.error ()), v.relevant = PyVal.bool false) ∧
    (grokTry [[("direction", PyVal.int 3)]] (normalizeTexts (.str "y")) = Option.none ∧
      (grok_analyze (.str "y") (.ok [[("direction", PyVal.int 3)]])).length = 1) :=
  ⟨(grok_analyze_total_on_failure.1 (.str "x") ()),
    ⟨by decide,
      (grok_analyze_total_on_failure.2.2 (.str "y") [[("direction", PyVal.int 3)]]
        (by decide)).1⟩⟩

/-- Helper: `failN` just adds `n` to the counter of `u`. -/
theorem failN_apply (n : Nat) (m : String → Nat) (u : String) :
    failN n m u u = m u + n := by
  induction n with
  | zero => rfl
  | succ k ih => simp [failN, recordFailure, ih]; omega

/-- C7. For every source, starting from a zero consecutive-failure
count: fewer than `CIRCUIT_BREAKER_THRESHOLD` (= 5) consecutive
`recordFailure` calls leave `shouldSkip` false; after exactly the
threshold-many calls `shouldSkip` becomes true and stays true under any
further failures (the source keeps being skipped until a success); a single
`recordSuccess` resets the counter to zero, making `shouldSkip` false
(from any state). -/
theorem circuit_breaker_threshold (m : String → Nat) (u : String)
    (h : m u = 0) :
    (∀ k, k < CIRCUIT_BREAKER_THRESHOLD → shouldSkip (failN k m u) u = false) ∧
    shouldSkip (failN CIRCUIT_BREAKER_THRESHOLD m u) u = true ∧
    (∀ k, CIRCUIT_BREAKER_THRESHOLD ≤ k → shouldSkip (failN k m u) u = true) ∧
    (∀ m' : String → Nat,
      recordSuccess m' u u = 0 ∧ shouldSkip (recordSuccess m' u) u = false) := by
  have hs : ∀ k, shouldSkip (failN k m u) u =
      decide (CIRCUIT_BREAKER_THRESHOLD ≤ k) := by
    intro k
    rw [shouldSkip, failN_apply, h]
    simp
  refine ⟨fun k hk => ?_, ?_, fun k hk => ?_, fun m' => ⟨?_, ?_⟩⟩
  · rw [hs]; simpa using Nat.not_le.mpr hk
  · rw [hs]; simp
  · rw [hs]; simpa using hk
  · simp [recordSuccess]
  · simp [shouldSkip, recordSuccess, CIRCUIT_BREAKER_THRESHOLD]

/-- Witness for `circuit_breaker_threshold`: the fresh `error_counts = {}`
table (every count 0) and the influencer `'elonmusk'`. -/
theorem circuit_breaker_threshold_witness :
    (fun _ : String => 0) "elonmusk" = 0 ∧
    shouldSkip (failN CIRCUIT_BREAKER_THRESHOLD (fun _ => 0) "elonmusk")
      "elonmusk" = true :=
  ⟨rfl, (circuit_breaker_threshold (fun _ => 0) "elonmusk" rfl).2.1⟩

/-- C9, counterexample. The fetchers do *not* raise distinguishable
errors on failure: `FinnhubAPI.get_recent_news` catches every exception and
returns `[]`, and `TwitterAPI.get_recent_tweets` returns `[]` both on a
generic exception and after exhausting its retries on rate limiting — in
each case the same normal value an empty result set produces, so a caller
cannot tell a failed fetch from genuinely no results. -/
theorem fetcher_failure_counterexample :
    get_recent_news (.error ()) 0 = [] ∧
    get_recent_news (.ok []) 0 = [] ∧
    get_recent_tweets (fun _ => .exc) = [] ∧
    get_recent_tweets (fun _ => .tooMany) = [] ∧
    get_recent_tweets (fun _ => .ok (some [])) = [] := by
  refine ⟨rfl, rfl, rfl, rfl, rfl⟩

/-- C9, amended. On failure the source fetchers swallow the error: a
raising news fetch, a first-attempt generic tweet-fetch exception, and a
rate-limited tweet fetch whose three attempts all hit `TooManyRequests`
each log and return the empty list, indistinguishable from no results; no
error of any kind reaches the caller. -/
theorem fetchers_swallow_errors :
    (∀ (e : Unit) (t : Int), get_recent_news (.error e) t = []) ∧
    (∀ os : Nat → TwAttempt, os 0 = .exc → get_recent_tweets os = []) ∧
    (∀ os : Nat → TwAttempt, (∀ i, os i = .tooMany) →
      get_recent_tweets os = []) := by
  refine ⟨fun e t => rfl, fun os h => ?_, fun os h => ?_⟩
  · unfold get_recent_tweets
    rw [h]
    rfl
  · unfold get_recent_tweets
    rw [h 0, h 1, h 2]
    rfl

/-- Witness for `fetchers_swallow_errors`: the all-`exc` and all-`tooMany`
attempt oracles. -/
theorem fetchers_swallow_errors_witness :
    get_recent_tweets (fun _ => .exc) = [] ∧
    get_recent_tweets (fun _ => .tooMany) = [] :=
  ⟨fetchers_swallow_errors.2.1 (fun _ => .exc) rfl,
    fetchers_swallow_errors.2.2 (fun _ => .tooMany) (fun _ => rfl)⟩

/-- The trace of one `fetch_news` category is empty (no new article) or
consists exactly of the five events produced for the first new article `w`:
rate check, analysis, request log, mark-seen, and the caught
`AttributeError`. -/
theorem processNews_trace (seen : List String) (arts : List Article) :
    (processNews seen arts).1 = [] ∨
    ∃ w ∈ arts, (processNews seen arts).1 =
      [.checkRate "grok", .analyze [w.summary], .logRequest "grok",
        .markSeen (toString w.id), .excCaught] := by
  induction arts with
  | nil => exact .inl rfl
  | cons a rest ih =>
    by_cases h : seen.contains (toString a.id)
    · have hstep : processNews seen (a :: rest) = processNews seen rest := by
        rw [processNews, if_pos h]
      rw [hstep]
      rcases ih with h' | ⟨w, hw, h'⟩
      · exact .inl h'
      · exact .inr ⟨w, List.mem_cons_of_mem _ hw, h'⟩
    · refine .inr ⟨a, List.mem_cons_self _ _, ?_⟩
      rw [processNews, if_neg h]

/-- Every `send` of a `tweetBlock` is the block's own item, sent only on a
truthy `relevant`. -/
theorem send_mem_tweetBlock {p : Verdict × TweetData} {id : String}
    (h : Event.send id ∈ tweetBlock p) :
    p.2.id = id ∧ truthy p.1.relevant = true := by
  by_cases ht : truthy p.1.relevant <;> simp [tweetBlock, ht] at h
  exact ⟨h.symm, ht⟩

/-- In a concatenation of `tweetBlock`s every `send` is preceded by the
`markSeen` of its own id. -/
theorem sendsMarkedBefore_flatMap (l : List (Verdict × TweetData))
    (marked : List String) :
    sendsMarkedBefore marked (l.flatMap tweetBlock) = true := by
  induction l generalizing marked with
  | nil => rfl
  | cons p rest ih =>
    rw [List.flatMap_cons]
    by_cases h : truthy p.1.relevant <;>
      simp [tweetBlock, h, sendsMarkedBefore] <;>
      exact ih _

/-- C1, counterexample. The code hands the text to `grok_analyze`
*before* adding the id to the processed set, in both pipelines.  Evaluated
on a one-tweet batch (upstream marking it relevant) and on a one-article
news category: `markSeen` does not precede the `analyze` event, so the
claimed ordering is false. -/
theorem mark_before_analysis_counterexample :
    markedBeforeAnalyzed "1" "hello"
      (processBatch [⟨"1", "hello", "u", "n"⟩]
        (.ok [[("relevant", PyVal.bool true)]])) = false ∧
    markedBeforeAnalyzed "7" "sum" ((processNews [] [⟨7, "sum"⟩]).1) = false := by
  decide

/-- C1, amended. In every polling cycle, for every candidate item not
already seen, the item's text is handed to the analysis service *before*
its id is added to the processed-id set (analysis always precedes marking),
and the id is marked seen before any alert for the item is dispatched (in
`fetch_news` the ids are distinct per feed and no alert is ever reached,
the per-item processing dying on the `AttributeError` of
`analysis.get`). -/
theorem analysis_precedes_marking (batch : List TweetData)
    (up : Except Unit (List PyDict)) (seen : List String)
    (arts : List Article)
    (hnd : (arts.map fun a => toString a.id).Nodup) :
    (∀ t ∈ batch,
      analyzedBeforeMarked t.id t.text (processBatch batch up) = true) ∧
    sendsMarkedBefore [] (processBatch batch up) = true ∧
    (∀ a ∈ arts,
      analyzedBeforeMarked (toString a.id) a.summary
        ((processNews seen arts).1) = true) ∧
    sendsMarkedBefore [] ((processNews seen arts).1) = true := by
  refine ⟨?_, ?_, ?_, ?_⟩
  · intro t ht
    cases batch with
    | nil => cases ht
    | cons b bs =>
      have hc : ((b :: bs).map (fun x => x.text)).contains t.text = true :=
        List.elem_eq_true_of_mem (List.mem_map_of_mem _ ht)
      rw [processBatch]
      simp only [List.isEmpty_cons, Bool.false_eq_true, if_false]
      rw [analyzedBeforeMarked, if_pos hc]
  · cases batch with
    | nil => rfl
    | cons b bs =>
      rw [processBatch]
      simp only [List.isEmpty_cons, Bool.false_eq_true, if_false]
      rw [sendsMarkedBefore, sendsMarkedBefore]
      exact sendsMarkedBefore_flatMap _ _
  · intro a ha
    rcases processNews_trace seen arts with htr | ⟨w, hw, htr⟩
    · rw [htr]; rfl
    · rw [htr]
      by_cases hc : ([w.summary].contains a.summary) = true
      · rw [analyzedBeforeMarked, analyzedBeforeMarked, if_pos hc]
      · have hne : a ≠ w := by
          intro he
          exact hc (by rw [he]; simp)
        have hid : ¬ (toString w.id = toString a.id) := by
          intro he
          exact hne (List.inj_on_of_nodup_map hnd ha hw he.symm)
        rw [analyzedBeforeMarked, analyzedBeforeMarked, if_neg hc,
          analyzedBeforeMarked, analyzedBeforeMarked, if_neg hid,
          analyzedBeforeMarked, analyzedBeforeMarked]
  · rcases processNews_trace seen arts with htr | ⟨w, hw, htr⟩
    · rw [htr]; rfl
    · rw [htr]
      rfl

/-- Witness for `analysis_precedes_marking`: a concrete one-tweet batch and
a concrete two-article category with distinct ids. -/
theorem analysis_precedes_marking_witness :
    analyzedBeforeMarked "1" "hello"
      (processBatch [⟨"1", "hello", "u", "n"⟩]
        (.ok [[("relevant", PyVal.bool true)]])) = true ∧
    analyzedBeforeMarked "7" "sum"
      ((processNews [] [⟨7, "sum"⟩, ⟨8, "other"⟩]).1) = true :=
  ⟨(analysis_precedes_marking [⟨"1", "hello", "u", "n"⟩]
      (.ok [[("relevant", PyVal.bool true)]]) [] [] (by decide)).1
      ⟨"1", "hello", "u", "n"⟩ (by decide),
    (analysis_precedes_marking [] (.error ()) []
      [⟨7, "sum"⟩, ⟨8, "other"⟩] (by decide)).2.2.1 ⟨7, "sum"⟩ (by decide)⟩

/-- C8. An alert is dispatched only for an item whose analysis verdict
is relevant: every `send` in the tweet batch trace belongs to a
`(verdict, tweet)` pair of the analysis output with a truthy `relevant`
field (in particular, a boolean `relevant` must be `True`); when the
analysis call failed (every verdict defaulted to `relevant = False`) no
`send` occurs at all; and the news pipeline never reaches a `send`. -/
theorem send_only_when_relevant :
    (∀ (batch : List TweetData) (up : Except Unit (List PyDict)) (id : String),
      Event.send id ∈ processBatch batch up →
      ∃ v t, (v, t) ∈ (grok_analyze (.list (batch.map fun x => x.text)) up).zip batch ∧
        t.id = id ∧ truthy v.relevant = true ∧
        ∀ b, v.relevant = PyVal.bool b → b = true) ∧
    (∀ (batch : List TweetData) (e : Unit) (id : String),
      Event.send id ∉ processBatch batch (.error e)) ∧
    (∀ (seen : List String) (arts : List Article) (id : String),
      Event.send id ∉ (processNews seen arts).1) := by
  have main : ∀ (batch : List TweetData) (up : Except Unit (List PyDict))
      (id : String),
      Event.send id ∈ processBatch batch up →
      ∃ v t, (v, t) ∈ (grok_analyze (.list (batch.map fun x => x.text)) up).zip batch ∧
        t.id = id ∧ truthy v.relevant = true ∧
        ∀ b, v.relevant = PyVal.bool b → b = true := by
    intro batch up id hmem
    cases batch with
    | nil => cases hmem
    | cons b bs =>
      rw [processBatch] at hmem
      simp only [List.isEmpty_cons, Bool.false_eq_true, if_false,
        List.mem_cons] at hmem
      rcases hmem with h | h | h
      · simp at h
      · simp at h
      · rw [List.mem_flatMap] at h
        obtain ⟨p, hp, hsend⟩ := h
        obtain ⟨hid, ht⟩ := send_mem_tweetBlock hsend
        refine ⟨p.1, p.2, by simpa using hp, hid, ht, ?_⟩
        intro bb hb
        rw [hb] at ht
        simpa [truthy] using ht
  refine ⟨main, ?_, ?_⟩
  · intro batch e id hmem
    obtain ⟨v, t, hvt, _, htr, _⟩ := main _ _ _ hmem
    have hv : v ∈ grok_analyze (.list (batch.map fun x => x.text)) (.error e) :=
      (List.of_mem_zip hvt).1
    have hdef : v = grokDefault := by
      have heq : grok_analyze (.list (batch.map fun x => x.text)) (.error e) =
          (batch.map fun x => x.text).map (fun _ => grokDefault) := rfl
      rw [heq, List.mem_map] at hv
      obtain ⟨x, _, he⟩ := hv
      exact he.symm
    rw [hdef] at htr
    exact absurd htr (by decide)
  · intro seen arts id hmem
    rcases processNews_trace seen arts with htr | ⟨w, hw, htr⟩
    · rw [htr] at hmem
      cases hmem
    · rw [htr] at hmem
      simp at hmem

/-- Witness for `send_only_when_relevant`: the one-tweet batch whose
upstream analysis marks it relevant; the dispatched alert is item `"1"`,
whose verdict has `relevant = True`. -/
theorem send_only_when_relevant_witness :
    ∃ (v : Verdict) (t : TweetData),
      (v, t) ∈ (grok_analyze (.list (([⟨"1", "hello", "u", "n"⟩] :
            List TweetData).map (fun x => x.text)))
        (.ok [[("relevant", PyVal.bool true)]])).zip
          ([⟨"1", "hello", "u", "n"⟩] : List TweetData) ∧
      t.id = "1" ∧ truthy v.relevant = true ∧
      ∀ b, v.relevant = PyVal.bool b → b = true :=
  send_only_when_relevant.1 [⟨"1", "hello", "u", "n"⟩]
    (.ok [[("relevant", PyVal.bool true)]]) "1" (by decide)

end FetchaBot
